import Mathlib

/-!
Shallow embedding of the claude-flow session-orchestration core
(`src/core/state-store.ts`, `src/core/session-manager.ts`,
`src/core/github-monitor.ts`) and proofs about its session lifecycle,
stream parsing and polling reconciliation behaviour.

Conventions of the embedding:
* timestamps (`datetime('now')`, `new Date()`) are modelled as a `Nat`
  value `now` threaded into every operation that records a time;
* the SQLite-backed `StateStore` is modelled as an in-memory record of
  lists; `id` is the sessions table's primary key, so `getSession` is a
  first-match lookup and `updateSession` rewrites every row whose `id`
  matches (rows created through `createSession` are unique by `id`);
* the external `uuidv5` hash and `JSON.parse` success test are external
  library functions, passed in as opaque function parameters;
* a thrown JS exception is modelled with `Except`; mutations performed
  before a `throw` survive in the returned store (no path of the source
  mutates before throwing, which the theorems make explicit).
-/

/-- Session lifecycle status, from `SessionStatus` in the types module. -/
inductive SessionStatus where
  | active
  | waiting
  | completed
  | failed
  | aborted
deriving DecidableEq, Repr

/-- Event kinds recorded in the `session_events` table
(`SessionEventType`). -/
inductive SessionEventType where
  | started
  | resumed
  | paused
  | completed
  | failed
  | crashed
deriving DecidableEq, Repr

/-- Structured payloads the core attaches to recorded events: the source
passes plain object literals (`{ issueNumber, persona }`,
`{ resumeCount }`, `{ exitCode }`, `{ error }`, `{ reason: 'aborted' }`,
`{}`); each literal shape becomes one constructor. -/
inductive EventPayload where
  | startedInfo (issueNumber : Nat) (persona : String)
  | resumedInfo (resumeCount : Nat)
  | exitInfo (exitCode : Option Int)
  | crashedInfo (error : String)
  | reasonInfo (reason : String)
  | emptyInfo
deriving DecidableEq, Repr

/-- One row of the `sessions` table (`Session` in the types module);
`persona` is kept as its underlying string. -/
structure Session where
  id : String
  issueNumber : Nat
  persona : String
  status : SessionStatus
  createdAt : Nat
  updatedAt : Nat
  completedAt : Option Nat
  resumeCount : Nat
  waitingForStatuses : Option (List String)
  projectPath : String
deriving DecidableEq, Repr

/-- One row of the `session_events` table. -/
structure SessionEventRec where
  sessionId : String
  eventType : SessionEventType
  payload : EventPayload
deriving DecidableEq, Repr

/-- One row of the `issue_graph` table (`IssueGraphEntry`). -/
structure IssueGraphEntry where
  issueNumber : Nat
  sessionId : String
  parentNumber : Option Nat
  currentStatus : Option String
  targetStatus : Option String
  updatedAt : Nat
deriving DecidableEq, Repr

/-- One row of the `status_transitions` table (`StatusTransition`). -/
structure StatusTransitionRec where
  issueNumber : Nat
  fromStatus : Option String
  toStatus : String
  detectedAt : Nat
deriving DecidableEq, Repr

/-- Input of `StateStore.createSession` (`SessionCreateInput`). -/
structure SessionCreateInput where
  id : String
  issueNumber : Nat
  persona : String
  projectPath : String
  waitingForStatuses : Option (List String) := none
deriving Repr

/-- Argument of `StateStore.updateSession`
(`Partial<Pick<Session, 'status' | 'resumeCount' | 'completedAt' |
'waitingForStatuses'>>`): a field that is `none` was not passed
(`undefined` in JS) and leaves the column untouched. -/
structure SessionUpdate where
  status : Option SessionStatus := none
  resumeCount : Option Nat := none
  completedAt : Option Nat := none
  waitingForStatuses : Option (List String) := none
deriving Repr

/-- Error raised by the SQLite layer when an `INSERT` violates the
`PRIMARY KEY` / `UNIQUE(issue_number, persona, project_path)`
constraints of the `sessions` table. -/
inductive StoreError where
  | uniqueConstraint
deriving DecidableEq, Repr

/-- In-memory model of the SQLite-backed `StateStore`: one list per
table. -/
structure StateStore where
  sessions : List Session
  events : List SessionEventRec
  issueGraph : List IssueGraphEntry
  transitions : List StatusTransitionRec
deriving Repr

/-- Lookup of `SELECT * FROM sessions WHERE id = ?` (primary-key
lookup, hence first match). -/
def StateStore.getSession (st : StateStore) (id : String) : Option Session :=
  st.sessions.find? (fun s => s.id = id)

/-- Embedding of `StateStore.createSession`: `INSERT INTO sessions ...
VALUES (?, ?, ?, 'active', ?, ?)`; fails when the primary key `id` or
the unique triple `(issue_number, persona, project_path)` already
exists (SQLite constraint). -/
def StateStore.createSession (st : StateStore) (input : SessionCreateInput)
    (now : Nat) : Except StoreError StateStore :=
  if st.sessions.any (fun s => s.id = input.id ∨
      (s.issueNumber = input.issueNumber ∧ s.persona = input.persona ∧
        s.projectPath = input.projectPath)) then
    .error .uniqueConstraint
  else
    .ok { st with sessions := st.sessions ++
      [{ id := input.id
         issueNumber := input.issueNumber
         persona := input.persona
         status := .active
         createdAt := now
         updatedAt := now
         completedAt := none
         resumeCount := 0
         waitingForStatuses := input.waitingForStatuses
         projectPath := input.projectPath }] }

/-- Application of one `updateSession` call's column assignments to one
row; `updated_at = datetime('now')` is always set. -/
def applySessionUpdate (u : SessionUpdate) (now : Nat) (s : Session) : Session :=
  { s with
    status := u.status.getD s.status
    resumeCount := u.resumeCount.getD s.resumeCount
    completedAt := match u.completedAt with
      | some t => some t
      | none => s.completedAt
    waitingForStatuses := match u.waitingForStatuses with
      | some w => some w
      | none => s.waitingForStatuses
    updatedAt := now }

/-- Embedding of `StateStore.updateSession`: `UPDATE sessions SET ...
WHERE id = ?`; a missing id updates nothing. -/
def StateStore.updateSession (st : StateStore) (id : String)
    (u : SessionUpdate) (now : Nat) : StateStore :=
  { st with sessions :=
      st.sessions.map (fun s => if s.id = id then applySessionUpdate u now s else s) }

/-- Embedding of `StateStore.recordEvent`: append-only `INSERT INTO
session_events`. -/
def StateStore.recordEvent (st : StateStore) (sessionId : String)
    (eventType : SessionEventType) (payload : EventPayload) : StateStore :=
  { st with events := st.events ++ [{ sessionId, eventType, payload }] }

/-- Embedding of `StateStore.getSessionsByStatus`: `SELECT * FROM
sessions WHERE status IN (...)`. -/
def StateStore.getSessionsByStatus (st : StateStore)
    (statuses : List SessionStatus) : List Session :=
  st.sessions.filter (fun s => statuses.contains s.status)

/-- Embedding of `StateStore.getTrackedIssues`: `SELECT issue_number
FROM issue_graph WHERE session_id = ?`. -/
def StateStore.getTrackedIssues (st : StateStore) (sessionId : String) : List Nat :=
  (st.issueGraph.filter (fun e => e.sessionId = sessionId)).map (fun e => e.issueNumber)

/-- Embedding of `StateStore.updateIssueStatus`: `UPDATE issue_graph SET
current_status = ?, updated_at = datetime('now') WHERE issue_number = ?
AND session_id = ?`. -/
def StateStore.updateIssueStatus (st : StateStore) (issueNumber : Nat)
    (sessionId : String) (status : String) (now : Nat) : StateStore :=
  { st with issueGraph := st.issueGraph.map (fun e =>
      if e.issueNumber = issueNumber ∧ e.sessionId = sessionId then
        { e with currentStatus := some status, updatedAt := now }
      else e) }

/-- Embedding of `StateStore.getIssueStatus`: `SELECT current_status
FROM issue_graph WHERE issue_number = ? AND session_id = ?` (the
composite primary key, hence first match); an absent row and a `NULL`
column both come back as `undefined`. -/
def StateStore.getIssueStatus (st : StateStore) (issueNumber : Nat)
    (sessionId : String) : Option String :=
  (st.issueGraph.find? (fun e =>
    e.issueNumber = issueNumber ∧ e.sessionId = sessionId)).bind (fun e => e.currentStatus)

/-- Embedding of `StateStore.recordTransition`: append-only `INSERT INTO
status_transitions`. -/
def StateStore.recordTransition (st : StateStore) (issueNumber : Nat)
    (fromStatus : Option String) (toStatus : String) (now : Nat) : StateStore :=
  { st with transitions := st.transitions ++
      [{ issueNumber, fromStatus, toStatus, detectedAt := now }] }

/-- Per-persona configuration (`personas[persona]` in the orchestrator
config): the feedback status that triggers a resume and the target
statuses that mark completion. -/
structure PersonaConfig where
  feedbackStatus : String
  targetStatuses : List String

/-- The slice of `OrchestratorConfig` the core reads: the Claude model
used when building commands and the persona table (`config.personas` is
modelled as a total lookup function on the persona string). -/
structure OrchestratorConfig where
  claudeModel : String
  personas : String → PersonaConfig

/-- Request of `SessionManager.startOrResume` (`SessionConfig`);
`fork`/`verbose` being optional in the source, an absent flag is
`false`. -/
structure SessionConfig where
  issueNumber : Nat
  persona : String
  projectPath : String
  config : OrchestratorConfig
  verbose : Bool := false
  fork : Bool := false

/-- Errors thrown out of `SessionManager.startOrResume`: the
`SessionAlreadyRunningError` of the source, or a store-level constraint
error propagating out of `createSession`. -/
inductive SMError where
  | sessionAlreadyRunning (issueNumber : Nat) (sessionId : String)
  | store (e : StoreError)
deriving DecidableEq, Repr

/-- Embedding of `SessionManager.generateSessionId`: the deterministic
name string `projectPath:persona:issueNumber` hashed by the external
`uuidv5` library function, which is passed in as the opaque parameter
`uuid5`. -/
def SessionManager.generateSessionId (uuid5 : String → String)
    (issueNumber : Nat) (persona : String) (projectPath : String) : String :=
  uuid5 (projectPath ++ ":" ++ persona ++ ":" ++ toString issueNumber)

/-- Embedding of `SessionManager.buildStartCommand`. -/
def SessionManager.buildStartCommand (sessionId : String) (cfg : SessionConfig) :
    List String :=
  ["--session-id", sessionId,
   "-p", "/" ++ cfg.persona ++ " " ++ toString cfg.issueNumber,
   "--verbose", "--output-format", "stream-json",
   "--model", cfg.config.claudeModel]

/-- Embedding of `SessionManager.getResumePrompt`. -/
def SessionManager.getResumePrompt (session : Session) : String :=
  "Continue the " ++ session.persona ++ " workflow for issue #" ++
    toString session.issueNumber ++ ". " ++
    "Check current status and proceed accordingly. This is resume attempt " ++
    toString (session.resumeCount + 1) ++ "."

/-- Embedding of `SessionManager.buildResumeCommand`. -/
def SessionManager.buildResumeCommand (session : Session) (cfg : SessionConfig) :
    List String :=
  ["--resume", session.id,
   "-p", SessionManager.getResumePrompt session,
   "--verbose", "--output-format", "stream-json",
   "--model", cfg.config.claudeModel]

/-- Embedding of the private `SessionManager.start`: with `replace` set
it rewrites the existing row to `{status: 'active', resumeCount: 0}`,
otherwise it inserts through `createSession` (which may throw before
anything else happened); then it records one `started` event and spawns
the worker, whose argument vector is the value of the `Except`. -/
def SessionManager.start (sessionId : String) (cfg : SessionConfig) (now : Nat)
    (st : StateStore) (replace : Bool) : StateStore × Except SMError (List String) :=
  if replace then
    let st1 := st.updateSession sessionId
      { status := some .active, resumeCount := some 0 } now
    let st2 := st1.recordEvent sessionId .started
      (.startedInfo cfg.issueNumber cfg.persona)
    (st2, .ok (SessionManager.buildStartCommand sessionId cfg))
  else
    match st.createSession
      { id := sessionId, issueNumber := cfg.issueNumber,
        persona := cfg.persona, projectPath := cfg.projectPath } now with
    | .error e => (st, .error (.store e))
    | .ok st1 =>
      let st2 := st1.recordEvent sessionId .started
        (.startedInfo cfg.issueNumber cfg.persona)
      (st2, .ok (SessionManager.buildStartCommand sessionId cfg))

/-- Embedding of the private `SessionManager.resume`: set the row to
`{status: 'active', resumeCount: session.resumeCount + 1}`, record one
`resumed` event carrying the new count, spawn the resume command. -/
def SessionManager.resume (session : Session) (cfg : SessionConfig) (now : Nat)
    (st : StateStore) : StateStore × Except SMError (List String) :=
  let st1 := st.updateSession session.id
    { status := some .active, resumeCount := some (session.resumeCount + 1) } now
  let st2 := st1.recordEvent session.id .resumed
    (.resumedInfo (session.resumeCount + 1))
  (st2, .ok (SessionManager.buildResumeCommand session cfg))

/-- Embedding of `SessionManager.startOrResume`: derive the identity,
then follow the source's decision chain — an existing row with `fork`
unset either throws `SessionAlreadyRunning` (status active), is
replaced after being marked aborted (failed/aborted with resumeCount
0), or is resumed; otherwise `start` runs. The returned store is the
store as left at the point the call returned or threw. -/
def SessionManager.startOrResume (uuid5 : String → String) (cfg : SessionConfig)
    (now : Nat) (st : StateStore) : StateStore × Except SMError (List String) :=
  let sessionId :=
    SessionManager.generateSessionId uuid5 cfg.issueNumber cfg.persona cfg.projectPath
  match st.getSession sessionId with
  | some existing =>
    if cfg.fork = false then
      if existing.status = .active then
        (st, .error (.sessionAlreadyRunning cfg.issueNumber sessionId))
      else if (existing.status = .failed ∨ existing.status = .aborted) ∧
          existing.resumeCount = 0 then
        let st1 := st.updateSession sessionId { status := some .aborted } now
        SessionManager.start sessionId cfg now st1 true
      else
        SessionManager.resume existing cfg now st
    else
      SessionManager.start sessionId cfg now st false
  | none => SessionManager.start sessionId cfg now st false

/-- Embedding of `SessionManager.abortSession`: a missing row is a
silent no-op; an existing row is set to `aborted` and one `failed`
event with `{reason: 'aborted'}` is recorded, with no check of the
current status. -/
def SessionManager.abortSession (sessionId : String) (now : Nat)
    (st : StateStore) : StateStore :=
  match st.getSession sessionId with
  | some _ =>
    (st.updateSession sessionId { status := some .aborted } now).recordEvent
      sessionId .failed (.reasonInfo "aborted")
  | none => st

/-- Embedding of `SessionManager.markCompleted`: set
`{status: 'completed', completedAt: now}` and record one `completed`
event with an empty payload. -/
def SessionManager.markCompleted (sessionId : String) (now : Nat)
    (st : StateStore) : StateStore :=
  (st.updateSession sessionId
    { status := some .completed, completedAt := some now } now).recordEvent
    sessionId .completed .emptyInfo

/-- Signals a `SessionHandle` emits to its callers; only the ones the
exit path produces are needed here. -/
inductive HandleSignal where
  | exitSignal (code : Option Int)
deriving DecidableEq, Repr

/-- Embedding of the `process.on('exit', ...)` handler in
`SessionHandle.setupHandlers`: `code === 0` (the JS exit code may be
`null` after a signal, hence `Option Int`) selects status `waiting`
with a `paused` event, anything else selects `failed` with a `failed`
event, both carrying `{exitCode: code}`; an `exit` signal goes to the
callers either way. -/
def SessionHandle.onExit (sessionId : String) (code : Option Int) (now : Nat)
    (st : StateStore) : StateStore × List HandleSignal :=
  let newStatus : SessionStatus := if code = some 0 then .waiting else .failed
  let st1 := st.updateSession sessionId { status := some newStatus } now
  let st2 := st1.recordEvent sessionId
    (if code = some 0 then .paused else .failed) (.exitInfo code)
  (st2, [.exitSignal code])

/-- Events `SessionHandle.parseStreamJson` emits for complete lines:
a line accepted by `JSON.parse` becomes a `message`, a non-blank
rejected line becomes a `raw` line. -/
inductive StreamEvent where
  | message (line : List Char)
  | raw (line : List Char)
deriving DecidableEq, Repr

/-- Splitting of a character sequence at newline characters, the model
of JS `buffer.split('\n')` followed by `lines.pop()`: the first
component is the list of complete (newline-terminated) lines, the
second the trailing text after the last newline (the retained
buffer). -/
def splitNl : List Char → List (List Char) × List Char
  | [] => ([], [])
  | c :: rest =>
    if c = '\n' then
      let p := splitNl rest
      ([] :: p.1, p.2)
    else
      match splitNl rest with
      | ([], b) => ([], c :: b)
      | (h :: t, b) => ((c :: h) :: t, b)

/-- Classification of one complete line, from the loop body of
`parseStreamJson`: `line.trim()` must be non-empty (the line holds a
non-whitespace character), then `JSON.parse` — modelled by the opaque
parameter `jsonOk` — decides between a `message` and a `raw` event. -/
def emitLine (jsonOk : List Char → Bool) (line : List Char) : Option StreamEvent :=
  if line.any (fun c => !c.isWhitespace) then
    if jsonOk line then some (.message line) else some (.raw line)
  else none

/-- Embedding of one `data` delivery in `SessionHandle.setupHandlers` +
`parseStreamJson`: the chunk is appended to the buffer, the buffer is
split on newlines, the trailing partial line is retained as the new
buffer, and each complete line is classified. -/
def SessionHandle.feed (jsonOk : List Char → Bool) (buffer chunk : List Char) :
    List StreamEvent × List Char :=
  let p := splitNl (buffer ++ chunk)
  (p.1.filterMap (emitLine jsonOk), p.2)

/-- Successive deliveries: each chunk is fed in order, events
accumulate in emission order and the buffer is threaded through. -/
def SessionHandle.feedMany (jsonOk : List Char → Bool) (buffer : List Char) :
    List (List Char) → List StreamEvent × List Char
  | [] => ([], buffer)
  | chunk :: rest =>
    let p := SessionHandle.feed jsonOk buffer chunk
    let q := SessionHandle.feedMany jsonOk p.2 rest
    (p.1 ++ q.1, q.2)

/-- Notifications `GitHubMonitor` emits (`MonitorEvents` in the
source); the session argument of `resumeTriggered` is represented by
its id. -/
inductive MonitorEvent where
  | statusChange (issueNumber : Nat) (fromStatus : Option String) (toStatus : String)
  | resumeTriggered (sessionId : String) (triggerIssue : Nat) (newStatus : String)
deriving DecidableEq, Repr

/-- Embedding of `GitHubMonitor.shouldResume`: resume when the new
value equals the persona's feedback status, or when the session's
`waitingForStatuses` list contains it (`?.includes`, so an absent list
never matches). `loadCfg` models `loadConfig(projectPath)`. -/
def GitHubMonitor.shouldResume (loadCfg : String → OrchestratorConfig)
    (session : Session) (newStatus : String) : Bool :=
  let pc := (loadCfg session.projectPath).personas session.persona
  if newStatus = pc.feedbackStatus then true
  else
    match session.waitingForStatuses with
    | some ws => ws.contains newStatus
    | none => false

/-- Embedding of `GitHubMonitor.triggerResume`: emit `resumeTriggered`,
then call `SessionManager.startOrResume` with the session's identity
fields and the loaded config (`fork` and `verbose` are not passed); a
thrown error is caught and only logged, leaving the store as it was. -/
def GitHubMonitor.triggerResume (uuid5 : String → String)
    (loadCfg : String → OrchestratorConfig) (session : Session)
    (triggerIssue : Nat) (newStatus : String) (now : Nat) (st : StateStore) :
    StateStore × List MonitorEvent :=
  let cfg : SessionConfig :=
    { issueNumber := session.issueNumber, persona := session.persona,
      projectPath := session.projectPath, config := loadCfg session.projectPath }
  let r := SessionManager.startOrResume uuid5 cfg now st
  (r.1, [.resumeTriggered session.id triggerIssue newStatus])

/-- Embedding of `GitHubMonitor.checkAllComplete`: every status in the
fetched map must be contained in the persona's target statuses (note:
the fetched map, not the stored tracked items, is consulted). -/
def GitHubMonitor.checkAllComplete (loadCfg : String → OrchestratorConfig)
    (session : Session) (statuses : List (Nat × String)) : Bool :=
  let targets := ((loadCfg session.projectPath).personas session.persona).targetStatuses
  statuses.all (fun p => targets.contains p.2)

/-- Embedding of the `for (const [issueNumber, newStatus] of statuses)`
loop of `GitHubMonitor.checkSession`: an unchanged status is skipped; a
changed one records a transition, updates the tracked item and emits
`statusChange`; when `shouldResume` fires, `triggerResume` runs and the
loop returns at once (the Boolean reports that early return). -/
def GitHubMonitor.checkItems (uuid5 : String → String)
    (loadCfg : String → OrchestratorConfig) (session : Session) (now : Nat) :
    List (Nat × String) → StateStore → StateStore × List MonitorEvent × Bool
  | [], st => (st, [], false)
  | (n, newStatus) :: rest, st =>
    let previous := st.getIssueStatus n session.id
    if previous = some newStatus then
      GitHubMonitor.checkItems uuid5 loadCfg session now rest st
    else
      let st1 := st.recordTransition n previous newStatus now
      let st2 := st1.updateIssueStatus n session.id newStatus now
      if GitHubMonitor.shouldResume loadCfg session newStatus then
        let r := GitHubMonitor.triggerResume uuid5 loadCfg session n newStatus now st2
        (r.1, MonitorEvent.statusChange n previous newStatus :: r.2, true)
      else
        let r := GitHubMonitor.checkItems uuid5 loadCfg session now rest st2
        (r.1, MonitorEvent.statusChange n previous newStatus :: r.2.1, r.2.2)

/-- Embedding of `GitHubMonitor.checkSession` for one waiting session
and one tick: the session's tracked issue numbers are read (an empty
list returns with only a warning); `statuses` stands for the result of
the batched `getProjectItemStatuses` fetch; the item loop runs, and
only when it did not return early is `checkAllComplete` consulted and
`markCompleted` called. -/
def GitHubMonitor.checkSession (uuid5 : String → String)
    (loadCfg : String → OrchestratorConfig) (statuses : List (Nat × String))
    (session : Session) (now : Nat) (st : StateStore) :
    StateStore × List MonitorEvent :=
  let issueNumbers := st.getTrackedIssues session.id
  if issueNumbers = [] then (st, [])
  else
    let r := GitHubMonitor.checkItems uuid5 loadCfg session now statuses st
    if r.2.2 then (r.1, r.2.1)
    else if GitHubMonitor.checkAllComplete loadCfg session statuses then
      (SessionManager.markCompleted session.id now r.1, r.2.1)
    else (r.1, r.2.1)

/-- Session count helper for stating the at-most-one-resume claims:
the number of `resumeTriggered` notifications in an emission list. -/
def countResumes (evs : List MonitorEvent) : Nat :=
  (evs.filter (fun e => match e with
    | .resumeTriggered _ _ _ => true
    | _ => false)).length

/-- Modelled from the spec's words (used to state C1 against the code):
every tracked item of the session has a current status that is a member
of the persona's target-status set. -/
def allTrackedInTargets (loadCfg : String → OrchestratorConfig)
    (session : Session) (st : StateStore) : Bool :=
  (st.issueGraph.filter (fun e => e.sessionId = session.id)).all (fun e =>
    match e.currentStatus with
    | some s =>
      ((loadCfg session.projectPath).personas session.persona).targetStatuses.contains s
    | none => false)

/-!
Concrete fixtures used by witnesses and counterexamples: one session
"s1" of persona "architect" on issue 200 in project "/p", whose persona
resumes on "Developer Review" and targets "Ready".
-/

/-- Stand-in for the external `uuidv5` hash in concrete runs. -/
def exUuid : String → String := fun _ => "s1"

/-- Concrete persona configuration (the spec's §8 scenario values). -/
def exPersonaCfg : PersonaConfig :=
  { feedbackStatus := "Developer Review", targetStatuses := ["Ready"] }

/-- Concrete orchestrator config. -/
def exOrcCfg : OrchestratorConfig :=
  { claudeModel := "sonnet", personas := fun _ => exPersonaCfg }

/-- Stand-in for `loadConfig` in concrete runs. -/
def exLoadCfg : String → OrchestratorConfig := fun _ => exOrcCfg

/-- Concrete waiting session. -/
def exSession : Session :=
  { id := "s1", issueNumber := 200, persona := "architect", status := .waiting,
    createdAt := 0, updatedAt := 0, completedAt := none, resumeCount := 0,
    waitingForStatuses := some ["Ready"], projectPath := "/p" }

/-- Concrete tracked item: issue 200, currently "In Progress". -/
def exGraphEntry : IssueGraphEntry :=
  { issueNumber := 200, sessionId := "s1", parentNumber := none,
    currentStatus := some "In Progress", targetStatus := some "Ready",
    updatedAt := 0 }

/-- Store holding one given session and the tracked item above. -/
def exStore (s : Session) : StateStore :=
  { sessions := [s], events := [], issueGraph := [exGraphEntry], transitions := [] }

/-- Concrete start request matching the session's identity. -/
def exConfig : SessionConfig :=
  { issueNumber := 200, persona := "architect", projectPath := "/p",
    config := exOrcCfg }

/-- Concrete waiting session with no `waitingForStatuses` list (used
for the completing tick). -/
def exSessionPlain : Session := { exSession with waitingForStatuses := none }

/-!
Store-level lemmas shared by the claim proofs.
-/

theorem applySessionUpdate_id (u : SessionUpdate) (now : Nat) (s : Session) :
    (applySessionUpdate u now s).id = s.id := rfl

theorem getSession_updateSession (st : StateStore) (id id' : String)
    (u : SessionUpdate) (now : Nat) :
    (st.updateSession id u now).getSession id' =
      (st.getSession id').map
        (fun s => if s.id = id then applySessionUpdate u now s else s) := by
  have hfun : ((fun s => decide (s.id = id')) ∘
      (fun s => if s.id = id then applySessionUpdate u now s else s)) =
      (fun s : Session => decide (s.id = id')) := by
    funext s
    by_cases h : s.id = id <;> simp [h, applySessionUpdate]
  unfold StateStore.updateSession StateStore.getSession
  rw [List.find?_map, hfun]

theorem getSession_some_id {st : StateStore} {id : String} {s : Session}
    (h : st.getSession id = some s) : s.id = id := by
  unfold StateStore.getSession at h
  have := List.find?_some h
  simpa using this

theorem getSession_updateSession_self (st : StateStore) (id : String)
    (u : SessionUpdate) (now : Nat) :
    (st.updateSession id u now).getSession id =
      (st.getSession id).map (applySessionUpdate u now) := by
  rw [getSession_updateSession]
  cases h : st.getSession id with
  | none => rfl
  | some s => simp [getSession_some_id h]

theorem getSession_recordEvent (st : StateStore) (sid : String)
    (k : SessionEventType) (p : EventPayload) (id : String) :
    (st.recordEvent sid k p).getSession id = st.getSession id := rfl

theorem getSession_recordTransition (st : StateStore) (n : Nat)
    (f : Option String) (t : String) (now : Nat) (id : String) :
    (st.recordTransition n f t now).getSession id = st.getSession id := rfl

theorem getSession_updateIssueStatus (st : StateStore) (n : Nat) (sid : String)
    (v : String) (now : Nat) (id : String) :
    (st.updateIssueStatus n sid v now).getSession id = st.getSession id := rfl

theorem events_updateSession (st : StateStore) (id : String) (u : SessionUpdate)
    (now : Nat) : (st.updateSession id u now).events = st.events := rfl

theorem events_recordEvent (st : StateStore) (sid : String) (k : SessionEventType)
    (p : EventPayload) :
    (st.recordEvent sid k p).events = st.events ++ [{ sessionId := sid, eventType := k, payload := p }] := rfl

theorem getSession_createSession_ok {st st' : StateStore}
    {input : SessionCreateInput} {now : Nat}
    (h : st.createSession input now = .ok st') (id : String) :
    st'.getSession id =
      (st.getSession id).or
        (if input.id = id then
          some { id := input.id, issueNumber := input.issueNumber,
                 persona := input.persona, status := .active, createdAt := now,
                 updatedAt := now, completedAt := none, resumeCount := 0,
                 waitingForStatuses := input.waitingForStatuses,
                 projectPath := input.projectPath }
         else none) := by
  unfold StateStore.createSession at h
  split at h
  · cases h
  · cases h
    unfold StateStore.getSession
    rw [List.find?_append]
    congr 1
    by_cases hid : input.id = id <;> simp [List.find?_cons, hid]

/-!
Claim theorems.
-/

/-- C2: a `startOrResume` whose derived identity has an existing
session with status `active` and `fork` unset returns the store
unchanged (same rows, same events, no other mutation) and throws
`SessionAlreadyRunning` carrying the issue number and the existing
session id; the `Except.error` result means no worker argument vector
is produced, hence no process is spawned. -/
theorem startOrResume_active_rejects (uuid5 : String → String)
    (cfg : SessionConfig) (now : Nat) (st : StateStore) (ex : Session)
    (hf : cfg.fork = false)
    (hs : st.getSession (SessionManager.generateSessionId uuid5 cfg.issueNumber
      cfg.persona cfg.projectPath) = some ex)
    (ha : ex.status = .active) :
    SessionManager.startOrResume uuid5 cfg now st =
      (st, .error (.sessionAlreadyRunning cfg.issueNumber
        (SessionManager.generateSessionId uuid5 cfg.issueNumber cfg.persona
          cfg.projectPath))) := by
  simp only [SessionManager.startOrResume]
  rw [hs]
  simp [hf, ha]

/-- C2 witness: the reject branch evaluated at the concrete fixture. -/
theorem startOrResume_active_rejects_witness :
    SessionManager.startOrResume exUuid exConfig 3
        (exStore { exSession with status := .active }) =
      (exStore { exSession with status := .active },
        .error (.sessionAlreadyRunning 200 "s1")) :=
  startOrResume_active_rejects exUuid exConfig 3
    (exStore { exSession with status := .active })
    { exSession with status := .active } rfl (by decide) rfl

/-- C5: for every observed worker exit, the handler sets the session
row to `waiting` exactly when the exit code is 0 and to `failed`
otherwise, records exactly one `paused` (respectively `failed`) event
carrying that exit code, and emits one exit signal with the code to
its callers in both cases. -/
theorem handle_exit_spec (sessionId : String) (code : Option Int) (now : Nat)
    (st : StateStore) :
    ((SessionHandle.onExit sessionId code now st).1.getSession sessionId =
      (st.getSession sessionId).map (fun s =>
        { s with
          status := if code = some 0 then SessionStatus.waiting else SessionStatus.failed,
          updatedAt := now }))
    ∧ (SessionHandle.onExit sessionId code now st).1.events =
        st.events ++ [{ sessionId := sessionId,
                        eventType := if code = some 0 then .paused else .failed,
                        payload := .exitInfo code }]
    ∧ (SessionHandle.onExit sessionId code now st).2 = [.exitSignal code] := by
  refine ⟨?_, ?_, rfl⟩
  · unfold SessionHandle.onExit
    rw [getSession_recordEvent, getSession_updateSession_self]
    congr 1
  · rfl

/-- C10: `abortSession` on a missing id is a silent no-op returning the
store untouched (no error value exists — the embedding is a total
function — and no event is recorded); on an existing id it sets the row
to `aborted` whatever its current status and records exactly one
`failed` event with reason "aborted". -/
theorem abortSession_spec (sessionId : String) (now : Nat) (st : StateStore) :
    (st.getSession sessionId = none →
      SessionManager.abortSession sessionId now st = st)
    ∧ (∀ ex, st.getSession sessionId = some ex →
        (((SessionManager.abortSession sessionId now st).getSession sessionId).map
            (fun s => s.status) = some .aborted)
        ∧ (SessionManager.abortSession sessionId now st).events =
            st.events ++ [{ sessionId := sessionId, eventType := .failed,
                            payload := .reasonInfo "aborted" }]) := by
  constructor
  · intro hnone
    unfold SessionManager.abortSession
    rw [hnone]
  · intro ex hsome
    unfold SessionManager.abortSession
    rw [hsome]
    constructor
    · rw [getSession_recordEvent, getSession_updateSession_self, hsome]
      rfl
    · rw [events_recordEvent, events_updateSession]

/-- C10 witness: both branches at concrete stores — aborting a missing
id leaves the store untouched, aborting the concrete completed session
flips it to `aborted` and appends the reason-tagged `failed` event. -/
theorem abortSession_spec_witness :
    (SessionManager.abortSession "zz" 3 (exStore exSession) = exStore exSession)
    ∧ (((SessionManager.abortSession "s1" 3
          (exStore { exSession with status := .completed })).getSession "s1").map
            (fun s => s.status) = some .aborted)
    ∧ (SessionManager.abortSession "s1" 3
          (exStore { exSession with status := .completed })).events =
        [{ sessionId := "s1", eventType := .failed, payload := .reasonInfo "aborted" }] := by
  refine ⟨(abortSession_spec "zz" 3 (exStore exSession)).1 (by decide), ?_, ?_⟩
  · exact ((abortSession_spec "s1" 3
      (exStore { exSession with status := .completed })).2
        { exSession with status := .completed } (by decide)).1
  · exact ((abortSession_spec "s1" 3
      (exStore { exSession with status := .completed })).2
        { exSession with status := .completed } (by decide)).2

/-- C4: with `fork` unset, an existing session in status `waiting`, or
in `failed`/`aborted` with a positive resumeCount, is resumed: the call
equals the `resume` branch, the row's status becomes `active` with
resumeCount incremented by exactly one, and exactly one `resumed` event
(carrying the new count) is appended. -/
theorem startOrResume_resumes (uuid5 : String → String) (cfg : SessionConfig)
    (now : Nat) (st : StateStore) (ex : Session)
    (hf : cfg.fork = false)
    (hs : st.getSession (SessionManager.generateSessionId uuid5 cfg.issueNumber
      cfg.persona cfg.projectPath) = some ex)
    (hcase : ex.status = .waiting ∨
      ((ex.status = .failed ∨ ex.status = .aborted) ∧ 0 < ex.resumeCount)) :
    SessionManager.startOrResume uuid5 cfg now st =
      SessionManager.resume ex cfg now st
    ∧ (((SessionManager.startOrResume uuid5 cfg now st).1.getSession
          (SessionManager.generateSessionId uuid5 cfg.issueNumber cfg.persona
            cfg.projectPath)).map (fun s => (s.status, s.resumeCount)) =
        some (.active, ex.resumeCount + 1))
    ∧ (SessionManager.startOrResume uuid5 cfg now st).1.events =
        st.events ++ [{ sessionId := SessionManager.generateSessionId uuid5
                          cfg.issueNumber cfg.persona cfg.projectPath,
                        eventType := .resumed,
                        payload := .resumedInfo (ex.resumeCount + 1) }] := by
  have hid : ex.id = SessionManager.generateSessionId uuid5 cfg.issueNumber
      cfg.persona cfg.projectPath := getSession_some_id hs
  have hs' : st.getSession ex.id = some ex := by rw [hid]; exact hs
  have hmain : SessionManager.startOrResume uuid5 cfg now st =
      SessionManager.resume ex cfg now st := by
    simp only [SessionManager.startOrResume]
    rw [hs]
    rcases hcase with hw | ⟨hfa, hrc⟩
    · simp [hf, hw]
    · rcases hfa with h1 | h1 <;>
        simp [hf, h1, Nat.pos_iff_ne_zero.mp hrc]
  refine ⟨hmain, ?_, ?_⟩
  · rw [hmain, ← hid]
    unfold SessionManager.resume
    rw [getSession_recordEvent, getSession_updateSession_self, hs']
    rfl
  · rw [hmain, ← hid]
    rfl

/-- C4 witness: resuming the concrete waiting session yields status
active, resumeCount 1 and one `resumed` event. -/
theorem startOrResume_resumes_witness :
    (((SessionManager.startOrResume exUuid exConfig 3 (exStore exSession)).1.getSession
        "s1").map (fun s => (s.status, s.resumeCount)) = some (.active, 1))
    ∧ (SessionManager.startOrResume exUuid exConfig 3 (exStore exSession)).1.events =
        [{ sessionId := "s1", eventType := .resumed, payload := .resumedInfo 1 }] := by
  have h := startOrResume_resumes exUuid exConfig 3 (exStore exSession) exSession
    rfl (by decide) (Or.inl rfl)
  exact ⟨h.2.1, h.2.2⟩

/-- C7: with `fork` unset, an existing session in `failed`/`aborted`
with resumeCount 0 is replaced: the call equals marking the old row
aborted and then restarting the same row (the `replace` branch of
`start`), the row ends with status `active` and resumeCount 0, and
exactly one `started` event — and in particular no `resumed` event —
is appended. -/
theorem startOrResume_replaces (uuid5 : String → String) (cfg : SessionConfig)
    (now : Nat) (st : StateStore) (ex : Session)
    (hf : cfg.fork = false)
    (hs : st.getSession (SessionManager.generateSessionId uuid5 cfg.issueNumber
      cfg.persona cfg.projectPath) = some ex)
    (hfa : ex.status = .failed ∨ ex.status = .aborted)
    (hrc : ex.resumeCount = 0) :
    SessionManager.startOrResume uuid5 cfg now st =
      SessionManager.start
        (SessionManager.generateSessionId uuid5 cfg.issueNumber cfg.persona
          cfg.projectPath) cfg now
        (st.updateSession (SessionManager.generateSessionId uuid5 cfg.issueNumber
          cfg.persona cfg.projectPath) { status := some .aborted } now) true
    ∧ (((SessionManager.startOrResume uuid5 cfg now st).1.getSession
          (SessionManager.generateSessionId uuid5 cfg.issueNumber cfg.persona
            cfg.projectPath)).map (fun s => (s.status, s.resumeCount)) =
        some (.active, 0))
    ∧ (SessionManager.startOrResume uuid5 cfg now st).1.events =
        st.events ++ [{ sessionId := SessionManager.generateSessionId uuid5
                          cfg.issueNumber cfg.persona cfg.projectPath,
                        eventType := .started,
                        payload := .startedInfo cfg.issueNumber cfg.persona }] := by
  have hmain : SessionManager.startOrResume uuid5 cfg now st =
      SessionManager.start
        (SessionManager.generateSessionId uuid5 cfg.issueNumber cfg.persona
          cfg.projectPath) cfg now
        (st.updateSession (SessionManager.generateSessionId uuid5 cfg.issueNumber
          cfg.persona cfg.projectPath) { status := some .aborted } now) true := by
    simp only [SessionManager.startOrResume]
    rw [hs]
    rcases hfa with h1 | h1 <;> simp [hf, h1, hrc]
  refine ⟨hmain, ?_, ?_⟩
  · rw [hmain]
    unfold SessionManager.start
    rw [if_pos rfl]
    rw [getSession_recordEvent, getSession_updateSession_self,
      getSession_updateSession_self, hs]
    rfl
  · rw [hmain]
    rfl

/-- C7 witness: replacing the concrete failed-before-first-success
session restarts it in place with one `started` event. -/
theorem startOrResume_replaces_witness :
    (((SessionManager.startOrResume exUuid exConfig 3
        (exStore { exSession with status := .failed })).1.getSession "s1").map
          (fun s => (s.status, s.resumeCount)) = some (.active, 0))
    ∧ (SessionManager.startOrResume exUuid exConfig 3
        (exStore { exSession with status := .failed })).1.events =
        [{ sessionId := "s1", eventType := .started,
           payload := .startedInfo 200 "architect" }] := by
  have h := startOrResume_replaces exUuid exConfig 3
    (exStore { exSession with status := .failed })
    { exSession with status := .failed } rfl (by decide) (Or.inl rfl) rfl
  exact ⟨h.2.1, h.2.2⟩

/-- C9: with `fork` set and any existing row under the derived
identity, the decision table is bypassed and `start` hits the store's
`createSession` with the same primary-key id, so the call returns the
store unchanged together with the uniqueness-constraint error — not
`SessionAlreadyRunning`, not a resume — and the unchanged store shows
no `started` event was recorded; the error result carries no spawn
argument vector. -/
theorem startOrResume_fork_unique_error (uuid5 : String → String)
    (cfg : SessionConfig) (now : Nat) (st : StateStore) (ex : Session)
    (hfork : cfg.fork = true)
    (hs : st.getSession (SessionManager.generateSessionId uuid5 cfg.issueNumber
      cfg.persona cfg.projectPath) = some ex) :
    SessionManager.startOrResume uuid5 cfg now st =
      (st, .error (.store .uniqueConstraint)) := by
  have hid : ex.id = SessionManager.generateSessionId uuid5 cfg.issueNumber
      cfg.persona cfg.projectPath := getSession_some_id hs
  have hmem : ex ∈ st.sessions := by
    unfold StateStore.getSession at hs
    exact List.mem_of_find?_eq_some hs
  have hany : st.sessions.any (fun s =>
      s.id = SessionManager.generateSessionId uuid5 cfg.issueNumber cfg.persona
        cfg.projectPath ∨
      (s.issueNumber = cfg.issueNumber ∧ s.persona = cfg.persona ∧
        s.projectPath = cfg.projectPath)) = true := by
    rw [List.any_eq_true]
    exact ⟨ex, hmem, by simp [hid]⟩
  simp only [SessionManager.startOrResume]
  rw [hs]
  simp only [hfork]
  unfold SessionManager.start
  rw [if_neg (by simp)]
  unfold StateStore.createSession
  rw [if_pos hany]
  rfl

/-- C9 witness: a forked request against the live concrete identity
comes back with the store's uniqueness error and an untouched store. -/
theorem startOrResume_fork_unique_error_witness :
    SessionManager.startOrResume exUuid { exConfig with fork := true } 3
        (exStore exSession) =
      (exStore exSession, .error (.store .uniqueConstraint)) :=
  startOrResume_fork_unique_error exUuid { exConfig with fork := true } 3
    (exStore exSession) exSession rfl (by decide)

theorem resume_getSession_active (ex : Session) (cfg : SessionConfig) (now : Nat)
    (st : StateStore) (hs : st.getSession ex.id = some ex) :
    (((SessionManager.resume ex cfg now st).1.getSession ex.id).map
      (fun s => s.status)) = some .active := by
  unfold SessionManager.resume
  rw [getSession_recordEvent, getSession_updateSession_self, hs]
  rfl

/-- C8 counterexample: the claim says an explicit abort never changes a
session that is already `completed`; at the concrete completed session,
`abortSession` moves it to `aborted`. -/
theorem abort_completed_counterexample :
    ((exStore { exSession with status := .completed }).getSession "s1").map
        (fun s => s.status) = some .completed
    ∧ (((SessionManager.abortSession "s1" 3
          (exStore { exSession with status := .completed })).getSession "s1").map
        (fun s => s.status)) = some .aborted := by
  exact ⟨by decide, by decide⟩

/-- C8 amended: `completed` and `aborted` are not terminal in this
core. An explicit abort sets any existing session — whatever its
current status, a `completed` one included — to `aborted`; and a
`startOrResume` with `fork` unset moves a session out of `completed`
(resuming it to `active`) and out of `aborted` with positive
resumeCount (also resuming to `active`), besides the
replace-on-resumeCount-0 path. -/
theorem terminal_states_amended :
    (∀ (sid : String) (now : Nat) (st : StateStore) (ex : Session),
      st.getSession sid = some ex →
      ((SessionManager.abortSession sid now st).getSession sid).map
          (fun s => s.status) = some .aborted)
    ∧ (∀ (uuid5 : String → String) (cfg : SessionConfig) (now : Nat)
        (st : StateStore) (ex : Session), cfg.fork = false →
        st.getSession (SessionManager.generateSessionId uuid5 cfg.issueNumber
          cfg.persona cfg.projectPath) = some ex →
        ex.status = .completed →
        (((SessionManager.startOrResume uuid5 cfg now st).1.getSession
            (SessionManager.generateSessionId uuid5 cfg.issueNumber cfg.persona
              cfg.projectPath)).map (fun s => s.status) = some .active))
    ∧ (∀ (uuid5 : String → String) (cfg : SessionConfig) (now : Nat)
        (st : StateStore) (ex : Session), cfg.fork = false →
        st.getSession (SessionManager.generateSessionId uuid5 cfg.issueNumber
          cfg.persona cfg.projectPath) = some ex →
        ex.status = .aborted → 0 < ex.resumeCount →
        (((SessionManager.startOrResume uuid5 cfg now st).1.getSession
            (SessionManager.generateSessionId uuid5 cfg.issueNumber cfg.persona
              cfg.projectPath)).map (fun s => s.status) = some .active)) := by
  refine ⟨?_, ?_, ?_⟩
  · intro sid now st ex hsome
    unfold SessionManager.abortSession
    rw [hsome, getSession_recordEvent, getSession_updateSession_self, hsome]
    rfl
  · intro uuid5 cfg now st ex hf hs hc
    have hid : ex.id = SessionManager.generateSessionId uuid5 cfg.issueNumber
        cfg.persona cfg.projectPath := getSession_some_id hs
    have hs' : st.getSession ex.id = some ex := by rw [hid]; exact hs
    have hmain : SessionManager.startOrResume uuid5 cfg now st =
        SessionManager.resume ex cfg now st := by
      simp only [SessionManager.startOrResume]
      rw [hs]
      simp [hf, hc]
    rw [hmain, ← hid]
    exact resume_getSession_active ex cfg now st hs'
  · intro uuid5 cfg now st ex hf hs ha hrc
    have hid : ex.id = SessionManager.generateSessionId uuid5 cfg.issueNumber
        cfg.persona cfg.projectPath := getSession_some_id hs
    have hs' : st.getSession ex.id = some ex := by rw [hid]; exact hs
    have hmain : SessionManager.startOrResume uuid5 cfg now st =
        SessionManager.resume ex cfg now st := by
      simp only [SessionManager.startOrResume]
      rw [hs]
      simp [hf, ha, Nat.pos_iff_ne_zero.mp hrc]
    rw [hmain, ← hid]
    exact resume_getSession_active ex cfg now st hs'

/-- C8 amended witness: the three escapes from terminal states at the
concrete fixtures — abort flips a completed session to aborted, and
start requests resume a completed and an aborted-with-resumeCount-1
session to active. -/
theorem terminal_states_amended_witness :
    (((SessionManager.abortSession "s1" 3
        (exStore { exSession with status := .completed })).getSession "s1").map
          (fun s => s.status) = some .aborted)
    ∧ (((SessionManager.startOrResume exUuid exConfig 3
          (exStore { exSession with status := .completed })).1.getSession "s1").map
            (fun s => s.status) = some .active)
    ∧ (((SessionManager.startOrResume exUuid exConfig 3
          (exStore { exSession with status := .aborted, resumeCount := 1 })).1.getSession
            "s1").map (fun s => s.status) = some .active) := by
  refine ⟨?_, ?_, ?_⟩
  · exact terminal_states_amended.1 "s1" 3
      (exStore { exSession with status := .completed })
      { exSession with status := .completed } (by decide)
  · exact terminal_states_amended.2.1 exUuid exConfig 3
      (exStore { exSession with status := .completed })
      { exSession with status := .completed } rfl (by decide) rfl
  · exact terminal_states_amended.2.2 exUuid exConfig 3
      (exStore { exSession with status := .aborted, resumeCount := 1 })
      { exSession with status := .aborted, resumeCount := 1 } rfl (by decide) rfl
      (by decide)

theorem splitNl_cons_newline (rest : List Char) :
    splitNl ('\n' :: rest) = ([] :: (splitNl rest).1, (splitNl rest).2) := by
  rfl

theorem splitNl_cons_other (c : Char) (rest : List Char) (hc : c ≠ '\n') :
    splitNl (c :: rest) =
      match splitNl rest with
      | ([], b) => ([], c :: b)
      | (h :: t, b) => ((c :: h) :: t, b) := by
  have h : splitNl (c :: rest) =
      if c = '\n' then ([] :: (splitNl rest).1, (splitNl rest).2)
      else match splitNl rest with
        | ([], b) => ([], c :: b)
        | (h :: t, b) => ((c :: h) :: t, b) := rfl
  rw [h, if_neg hc]

theorem splitNl_append (xs ys : List Char) :
    splitNl (xs ++ ys) =
      ((splitNl xs).1 ++ (splitNl ((splitNl xs).2 ++ ys)).1,
       (splitNl ((splitNl xs).2 ++ ys)).2) := by
  induction xs with
  | nil => simp [splitNl]
  | cons c rest ih =>
    by_cases hc : c = '\n'
    · subst hc
      rw [List.cons_append, splitNl_cons_newline, splitNl_cons_newline, ih]
      simp
    · rw [List.cons_append, splitNl_cons_other c (rest ++ ys) hc,
        splitNl_cons_other c rest hc, ih]
      rcases hA : splitNl rest with ⟨A1, A2⟩
      rcases hB : splitNl (A2 ++ ys) with ⟨B1, B2⟩
      cases A1 with
      | nil =>
        cases B1 with
        | nil => simp [hA, hB, splitNl_cons_other c (A2 ++ ys) hc]
        | cons bh bt => simp [hA, hB, splitNl_cons_other c (A2 ++ ys) hc]
      | cons ah at' => simp [hA, hB]

theorem splitNl_snd_no_newline (xs : List Char) : '\n' ∉ (splitNl xs).2 := by
  induction xs with
  | nil => simp [splitNl]
  | cons c rest ih =>
    by_cases hc : c = '\n'
    · subst hc
      rw [splitNl_cons_newline]
      exact ih
    · rw [splitNl_cons_other c rest hc]
      rcases hA : splitNl rest with ⟨A1, A2⟩
      rw [hA] at ih
      cases A1 with
      | nil =>
        simp only []
        intro hmem
        rcases List.mem_cons.mp hmem with h | h
        · exact hc h.symm
        · exact ih h
      | cons ah at' => exact ih

theorem splitNl_no_newline (xs : List Char) (h : '\n' ∉ xs) :
    splitNl xs = ([], xs) := by
  induction xs with
  | nil => rfl
  | cons c rest ih =>
    have hc : c ≠ '\n' := fun hh => h (hh ▸ List.mem_cons_self c rest)
    have hr : '\n' ∉ rest := fun hh => h (List.mem_cons_of_mem c hh)
    rw [splitNl_cons_other c rest hc, ih hr]

theorem feed_append (jsonOk : List Char → Bool) (b c1 c2 : List Char) :
    SessionHandle.feed jsonOk b (c1 ++ c2) =
      ((SessionHandle.feed jsonOk b c1).1 ++
        (SessionHandle.feed jsonOk (SessionHandle.feed jsonOk b c1).2 c2).1,
       (SessionHandle.feed jsonOk (SessionHandle.feed jsonOk b c1).2 c2).2) := by
  unfold SessionHandle.feed
  rw [← List.append_assoc, splitNl_append (b ++ c1) c2]
  simp [List.filterMap_append]

theorem feedMany_eq_feed_join (jsonOk : List Char → Bool)
    (chunks : List (List Char)) :
    ∀ b : List Char, '\n' ∉ b →
      SessionHandle.feedMany jsonOk b chunks =
        SessionHandle.feed jsonOk b chunks.flatten := by
  induction chunks with
  | nil =>
    intro b hb
    unfold SessionHandle.feedMany SessionHandle.feed
    rw [List.flatten_nil, List.append_nil, splitNl_no_newline b hb]
    rfl
  | cons c rest ih =>
    intro b hb
    show ((SessionHandle.feed jsonOk b c).1 ++
        (SessionHandle.feedMany jsonOk (SessionHandle.feed jsonOk b c).2 rest).1,
      (SessionHandle.feedMany jsonOk (SessionHandle.feed jsonOk b c).2 rest).2) =
      SessionHandle.feed jsonOk b (c :: rest).flatten
    rw [ih (SessionHandle.feed jsonOk b c).2 (splitNl_snd_no_newline (b ++ c)),
      List.flatten_cons, feed_append jsonOk b c rest.flatten]

/-- C6: chunking invariance of the stream parser — for every stdout
character sequence and every way of splitting it into successive
deliveries, feeding the chunks one by one through the handler's
buffer emits exactly the `message`/`raw` event sequence (and leaves
exactly the buffer) of feeding the whole concatenation at once, for
every behaviour of the external JSON parser; in particular a record
split across two deliveries parses as exactly one event. -/
theorem parse_stream_chunk_invariant (jsonOk : List Char → Bool)
    (chunks : List (List Char)) :
    SessionHandle.feedMany jsonOk [] chunks =
      SessionHandle.feed jsonOk [] chunks.flatten :=
  feedMany_eq_feed_join jsonOk chunks [] (by simp)

theorem checkItems_nil (u : String → String) (lc : String → OrchestratorConfig)
    (s : Session) (now : Nat) (st : StateStore) :
    GitHubMonitor.checkItems u lc s now [] st = (st, [], false) := rfl

theorem checkItems_cons (u : String → String) (lc : String → OrchestratorConfig)
    (s : Session) (now : Nat) (n : Nat) (v : String)
    (rest : List (Nat × String)) (st : StateStore) :
    GitHubMonitor.checkItems u lc s now ((n, v) :: rest) st =
      if st.getIssueStatus n s.id = some v then
        GitHubMonitor.checkItems u lc s now rest st
      else
        if GitHubMonitor.shouldResume lc s v then
          ((GitHubMonitor.triggerResume u lc s n v now
              ((st.recordTransition n (st.getIssueStatus n s.id) v
                now).updateIssueStatus n s.id v now)).1,
            MonitorEvent.statusChange n (st.getIssueStatus n s.id) v ::
              (GitHubMonitor.triggerResume u lc s n v now
                ((st.recordTransition n (st.getIssueStatus n s.id) v
                  now).updateIssueStatus n s.id v now)).2,
            true)
        else
          ((GitHubMonitor.checkItems u lc s now rest
              ((st.recordTransition n (st.getIssueStatus n s.id) v
                now).updateIssueStatus n s.id v now)).1,
            MonitorEvent.statusChange n (st.getIssueStatus n s.id) v ::
              (GitHubMonitor.checkItems u lc s now rest
                ((st.recordTransition n (st.getIssueStatus n s.id) v
                  now).updateIssueStatus n s.id v now)).2.1,
            (GitHubMonitor.checkItems u lc s now rest
              ((st.recordTransition n (st.getIssueStatus n s.id) v
                now).updateIssueStatus n s.id v now)).2.2) := rfl

theorem countResumes_nil : countResumes [] = 0 := rfl

theorem countResumes_statusChange (n : Nat) (p : Option String) (v : String)
    (evs : List MonitorEvent) :
    countResumes (.statusChange n p v :: evs) = countResumes evs := rfl

theorem countResumes_resumeTriggered (sid : String) (n : Nat) (v : String)
    (evs : List MonitorEvent) :
    countResumes (.resumeTriggered sid n v :: evs) = countResumes evs + 1 := by
  simp [countResumes, List.filter]

theorem triggerResume_events (u : String → String)
    (lc : String → OrchestratorConfig) (s : Session) (n : Nat) (v : String)
    (now : Nat) (st : StateStore) :
    (GitHubMonitor.triggerResume u lc s n v now st).2 =
      [.resumeTriggered s.id n v] := rfl

theorem checkItems_countResumes (u : String → String)
    (lc : String → OrchestratorConfig) (s : Session) (now : Nat)
    (l : List (Nat × String)) :
    ∀ st : StateStore,
      countResumes (GitHubMonitor.checkItems u lc s now l st).2.1 =
        (if (GitHubMonitor.checkItems u lc s now l st).2.2 then 1 else 0) := by
  induction l with
  | nil => intro st; rfl
  | cons p rest ih =>
    intro st
    rcases p with ⟨n, v⟩
    rw [checkItems_cons]
    by_cases h : st.getIssueStatus n s.id = some v
    · rw [if_pos h]
      exact ih st
    · rw [if_neg h]
      by_cases hre : GitHubMonitor.shouldResume lc s v = true
      · rw [if_pos hre]
        rw [countResumes_statusChange, triggerResume_events,
          countResumes_resumeTriggered]
        rfl
      · rw [if_neg hre]
        rw [countResumes_statusChange]
        exact ih _

theorem getSession_eq_of_sessions_eq {st1 st2 : StateStore}
    (h : st1.sessions = st2.sessions) (id : String) :
    st1.getSession id = st2.getSession id := by
  unfold StateStore.getSession
  rw [h]

theorem checkItems_sessions_no_trigger (u : String → String)
    (lc : String → OrchestratorConfig) (s : Session) (now : Nat)
    (l : List (Nat × String)) :
    ∀ st : StateStore, (GitHubMonitor.checkItems u lc s now l st).2.2 = false →
      (GitHubMonitor.checkItems u lc s now l st).1.sessions = st.sessions := by
  induction l with
  | nil => intro st _; rfl
  | cons p rest ih =>
    intro st hfl
    rcases p with ⟨n, v⟩
    rw [checkItems_cons] at hfl ⊢
    by_cases h : st.getIssueStatus n s.id = some v
    · rw [if_pos h] at hfl ⊢
      exact ih st hfl
    · rw [if_neg h] at hfl ⊢
      by_cases hre : GitHubMonitor.shouldResume lc s v = true
      · rw [if_pos hre] at hfl
        exact absurd hfl (by simp)
      · rw [if_neg hre] at hfl ⊢
        exact ih _ hfl

theorem getSession_status_updateSession (st : StateStore) (id id' : String)
    (u : SessionUpdate) (now : Nat) :
    ((st.updateSession id u now).getSession id').map (fun s => s.status) =
      (st.getSession id').map
        (fun s => if s.id = id then u.status.getD s.status else s.status) := by
  rw [getSession_updateSession]
  cases hf : st.getSession id' with
  | none => rfl
  | some s => by_cases hid : s.id = id <;> simp [hid, applySessionUpdate]

theorem updateSession_no_new_completed {st : StateStore} {id id' : String}
    {u : SessionUpdate} {now : Nat}
    (hv : u.status ≠ some SessionStatus.completed)
    (h : (st.getSession id').map (fun s => s.status) ≠ some .completed) :
    ((st.updateSession id u now).getSession id').map (fun s => s.status) ≠
      some .completed := by
  rw [getSession_status_updateSession]
  cases hf : st.getSession id' with
  | none => simp
  | some s =>
    rw [hf] at h
    simp only [Option.map_some'] at h ⊢
    intro hcon
    apply h
    congr 1
    have hcon' := Option.some.inj hcon
    by_cases hid : s.id = id
    · rw [if_pos hid] at hcon'
      cases hu : u.status with
      | some v =>
        rw [hu, Option.getD_some] at hcon'
        exact absurd (hu.trans (by rw [hcon'])) hv
      | none =>
        rw [hu, Option.getD_none] at hcon'
        exact hcon'
    · rw [if_neg hid] at hcon'
      exact hcon'

theorem createSession_no_new_completed {st st' : StateStore}
    {input : SessionCreateInput} {now : Nat}
    (hok : st.createSession input now = .ok st') (id' : String)
    (h : (st.getSession id').map (fun s => s.status) ≠ some .completed) :
    (st'.getSession id').map (fun s => s.status) ≠ some .completed := by
  rw [getSession_createSession_ok hok]
  cases hf : st.getSession id' with
  | none =>
    by_cases hid : input.id = id' <;> simp [hid]
  | some s =>
    rw [hf] at h
    simpa using h

theorem start_no_new_completed (sessionId : String) (cfg : SessionConfig)
    (now : Nat) (st : StateStore) (replace : Bool) (id' : String)
    (h : (st.getSession id').map (fun s => s.status) ≠ some .completed) :
    (((SessionManager.start sessionId cfg now st replace).1.getSession id').map
      (fun s => s.status)) ≠ some .completed := by
  unfold SessionManager.start
  cases replace with
  | true =>
    rw [if_pos rfl]
    show ((((st.updateSession sessionId
        { status := some .active, resumeCount := some 0 } now).recordEvent sessionId
        .started (.startedInfo cfg.issueNumber cfg.persona)).getSession id').map
          (fun s => s.status)) ≠ some .completed
    rw [getSession_recordEvent]
    exact updateSession_no_new_completed (by simp) h
  | false =>
    rw [if_neg (by simp)]
    cases hok : st.createSession
      { id := sessionId, issueNumber := cfg.issueNumber, persona := cfg.persona,
        projectPath := cfg.projectPath } now with
    | error e => exact h
    | ok st1 =>
      show (((st1.recordEvent sessionId .started
          (.startedInfo cfg.issueNumber cfg.persona)).getSession id').map
            (fun s => s.status)) ≠ some .completed
      rw [getSession_recordEvent]
      exact createSession_no_new_completed hok id' h

theorem resume_no_new_completed (ex : Session) (cfg : SessionConfig) (now : Nat)
    (st : StateStore) (id' : String)
    (h : (st.getSession id').map (fun s => s.status) ≠ some .completed) :
    (((SessionManager.resume ex cfg now st).1.getSession id').map
      (fun s => s.status)) ≠ some .completed := by
  unfold SessionManager.resume
  show ((((st.updateSession ex.id
      { status := some .active, resumeCount := some (ex.resumeCount + 1) }
      now).recordEvent ex.id .resumed
      (.resumedInfo (ex.resumeCount + 1))).getSession id').map
        (fun s => s.status)) ≠ some .completed
  rw [getSession_recordEvent]
  exact updateSession_no_new_completed (by simp) h

theorem startOrResume_no_new_completed (uuid5 : String → String)
    (cfg : SessionConfig) (now : Nat) (st : StateStore) (id' : String)
    (h : (st.getSession id').map (fun s => s.status) ≠ some .completed) :
    (((SessionManager.startOrResume uuid5 cfg now st).1.getSession id').map
      (fun s => s.status)) ≠ some .completed := by
  cases hfind : st.getSession (SessionManager.generateSessionId uuid5
      cfg.issueNumber cfg.persona cfg.projectPath) with
  | none =>
    simp only [SessionManager.startOrResume, hfind]
    exact start_no_new_completed _ cfg now st false id' h
  | some ex =>
    simp only [SessionManager.startOrResume, hfind]
    by_cases hfork : cfg.fork = false
    · rw [if_pos hfork]
      by_cases hact : ex.status = .active
      · rw [if_pos hact]
        exact h
      · rw [if_neg hact]
        by_cases hrep : (ex.status = .failed ∨ ex.status = .aborted) ∧
            ex.resumeCount = 0
        · rw [if_pos hrep]
          exact start_no_new_completed _ cfg now _ true id'
            (updateSession_no_new_completed (by simp) h)
        · rw [if_neg hrep]
          exact resume_no_new_completed ex cfg now st id' h
    · rw [if_neg hfork]
      exact start_no_new_completed _ cfg now st false id' h

theorem checkItems_no_new_completed (u : String → String)
    (lc : String → OrchestratorConfig) (s : Session) (now : Nat)
    (l : List (Nat × String)) :
    ∀ (st : StateStore) (id' : String),
      ((st.getSession id').map (fun x => x.status) ≠ some .completed) →
      (((GitHubMonitor.checkItems u lc s now l st).1.getSession id').map
        (fun x => x.status)) ≠ some .completed := by
  induction l with
  | nil => intro st id' h; exact h
  | cons p rest ih =>
    intro st id' h
    rcases p with ⟨n, v⟩
    rw [checkItems_cons]
    by_cases hprev : st.getIssueStatus n s.id = some v
    · rw [if_pos hprev]
      exact ih st id' h
    · rw [if_neg hprev]
      have h2 : ((((st.recordTransition n (st.getIssueStatus n s.id) v
          now).updateIssueStatus n s.id v now).getSession id').map
            (fun x => x.status)) ≠ some .completed := by
        rw [getSession_updateIssueStatus, getSession_recordTransition]
        exact h
      by_cases hre : GitHubMonitor.shouldResume lc s v = true
      · rw [if_pos hre]
        show (((GitHubMonitor.triggerResume u lc s n v now _).1.getSession
          id').map (fun x => x.status)) ≠ some .completed
        unfold GitHubMonitor.triggerResume
        exact startOrResume_no_new_completed u _ now _ id' h2
      · rw [if_neg hre]
        exact ih _ id' h2

theorem markCompleted_status (sessionId : String) (now : Nat) (st : StateStore)
    (ex : Session) (hs : st.getSession sessionId = some ex) :
    ((SessionManager.markCompleted sessionId now st).getSession sessionId).map
      (fun s => s.status) = some .completed := by
  unfold SessionManager.markCompleted
  rw [getSession_recordEvent, getSession_updateSession_self, hs]
  rfl

theorem checkSession_events (u : String → String)
    (lc : String → OrchestratorConfig) (statuses : List (Nat × String))
    (s : Session) (now : Nat) (st : StateStore) :
    (GitHubMonitor.checkSession u lc statuses s now st).2 =
      if st.getTrackedIssues s.id = [] then []
      else (GitHubMonitor.checkItems u lc s now statuses st).2.1 := by
  simp only [GitHubMonitor.checkSession]
  by_cases ht : st.getTrackedIssues s.id = []
  · rw [if_pos ht, if_pos ht]
  · rw [if_neg ht, if_neg ht]
    by_cases hfl : (GitHubMonitor.checkItems u lc s now statuses st).2.2 = true
    · rw [if_pos hfl]
    · rw [if_neg hfl]
      by_cases hcc : GitHubMonitor.checkAllComplete lc s statuses = true
      · rw [if_pos hcc]
      · rw [if_neg hcc]

theorem checkItems_early_return (u : String → String)
    (lc : String → OrchestratorConfig) (s : Session) (now : Nat)
    (l1 : List (Nat × String)) (item : Nat × String)
    (l2 l2' : List (Nat × String)) :
    ∀ st : StateStore,
      (GitHubMonitor.checkItems u lc s now l1 st).2.2 = false →
      (GitHubMonitor.checkItems u lc s now l1 st).1.getIssueStatus item.1 s.id ≠
        some item.2 →
      GitHubMonitor.shouldResume lc s item.2 = true →
      GitHubMonitor.checkItems u lc s now (l1 ++ item :: l2) st =
        GitHubMonitor.checkItems u lc s now (l1 ++ item :: l2') st
      ∧ (GitHubMonitor.checkItems u lc s now (l1 ++ item :: l2) st).2.2 = true := by
  induction l1 with
  | nil =>
    intro st hfl hprev hre
    rcases item with ⟨n, v⟩
    simp only [checkItems_nil] at hprev
    simp only at hprev hre
    rw [List.nil_append, List.nil_append, checkItems_cons, checkItems_cons]
    rw [if_neg hprev, if_neg hprev, if_pos hre, if_pos hre]
    exact ⟨rfl, rfl⟩
  | cons p rest ih =>
    intro st hfl hprev hre
    rcases p with ⟨n, v⟩
    rw [checkItems_cons] at hfl hprev
    rw [List.cons_append, List.cons_append, checkItems_cons, checkItems_cons]
    by_cases hp : st.getIssueStatus n s.id = some v
    · rw [if_pos hp] at hfl hprev
      rw [if_pos hp, if_pos hp]
      exact ih st hfl hprev hre
    · rw [if_neg hp] at hfl hprev
      rw [if_neg hp, if_neg hp]
      by_cases hr : GitHubMonitor.shouldResume lc s v = true
      · rw [if_pos hr] at hfl
        exact absurd hfl (by simp)
      · rw [if_neg hr] at hfl hprev
        rw [if_neg hr, if_neg hr]
        have hih := ih _ hfl hprev hre
        constructor
        · rw [hih.1]
        · exact hih.2

/-- C3: in one poll tick, at most one resume is triggered per waiting
session, however many of its items changed to resume-triggering
values; and once one item triggers, the remaining item changes of that
tick are not evaluated further for that session — processing the list
up to and including the triggering item gives the same store, the same
notifications and the same outcome as processing the full list. -/
theorem checkSession_single_resume (uuid5 : String → String)
    (loadCfg : String → OrchestratorConfig) (session : Session) (now : Nat)
    (st : StateStore) (statuses : List (Nat × String)) :
    countResumes (GitHubMonitor.checkSession uuid5 loadCfg statuses session now
      st).2 ≤ 1
    ∧ (∀ (pre : List (Nat × String)) (item : Nat × String)
        (post : List (Nat × String)),
        statuses = pre ++ item :: post →
        (GitHubMonitor.checkItems uuid5 loadCfg session now pre st).2.2 = false →
        (GitHubMonitor.checkItems uuid5 loadCfg session now pre
          st).1.getIssueStatus item.1 session.id ≠ some item.2 →
        GitHubMonitor.shouldResume loadCfg session item.2 = true →
        GitHubMonitor.checkSession uuid5 loadCfg statuses session now st =
          GitHubMonitor.checkSession uuid5 loadCfg (pre ++ [item]) session now
            st) := by
  constructor
  · rw [checkSession_events]
    by_cases ht : st.getTrackedIssues session.id = []
    · rw [if_pos ht]
      simp [countResumes]
    · rw [if_neg ht]
      rw [checkItems_countResumes]
      by_cases hfl : (GitHubMonitor.checkItems uuid5 loadCfg session now statuses
          st).2.2 = true
      · rw [if_pos hfl]
      · rw [if_neg hfl]
        simp
  · intro pre item post hsplit hfl hprev hre
    subst hsplit
    have hearly := checkItems_early_return uuid5 loadCfg session now pre item
      post [] st hfl hprev hre
    simp only [GitHubMonitor.checkSession]
    by_cases ht : st.getTrackedIssues session.id = []
    · rw [if_pos ht, if_pos ht]
    · rw [if_neg ht, if_neg ht]
      rw [hearly.1]
      have hflag : (GitHubMonitor.checkItems uuid5 loadCfg session now
          (pre ++ [item]) st).2.2 = true := by
        rw [← hearly.1]
        exact hearly.2
      rw [if_pos hflag, if_pos hflag]

/-- C3 witness: with two items both changing to a triggering value,
the tick emits exactly at most one resume and equals the tick that
stops right after the first triggering item. -/
theorem checkSession_single_resume_witness :
    countResumes (GitHubMonitor.checkSession exUuid exLoadCfg
      [(200, "Ready"), (201, "Ready")] exSession 5 (exStore exSession)).2 ≤ 1
    ∧ GitHubMonitor.checkSession exUuid exLoadCfg
        [(200, "Ready"), (201, "Ready")] exSession 5 (exStore exSession) =
      GitHubMonitor.checkSession exUuid exLoadCfg [(200, "Ready")] exSession 5
        (exStore exSession) := by
  have h := checkSession_single_resume exUuid exLoadCfg exSession 5
    (exStore exSession) [(200, "Ready"), (201, "Ready")]
  exact ⟨h.1, h.2 [] (200, "Ready") [(201, "Ready")] rfl (by decide) (by decide)
    (by decide)⟩

/-- C1 counterexample: the claim's completion rule fails on the code.
At the concrete tick, the single tracked item moves to "Ready", which
is inside the target set, so after the batched fetch every tracked
item's current status is in the target set; yet the tick triggers a
resume (because "Ready" is also in `waitingForStatuses`) and returns
before the completion check: the session ends the tick `active`, not
`completed`, so `markCompleted` is neither called "if and only if" the
condition holds nor given priority over the resume. -/
theorem checkSession_completion_counterexample :
    allTrackedInTargets exLoadCfg exSession
      ((GitHubMonitor.checkSession exUuid exLoadCfg [(200, "Ready")] exSession 5
        (exStore exSession)).1) = true
    ∧ (((GitHubMonitor.checkSession exUuid exLoadCfg [(200, "Ready")] exSession 5
        (exStore exSession)).1.getSession "s1").map (fun s => s.status)) =
      some .active
    ∧ countResumes (GitHubMonitor.checkSession exUuid exLoadCfg [(200, "Ready")]
        exSession 5 (exStore exSession)).2 = 1 := by
  refine ⟨by decide, by decide, by decide⟩

/-- C1 amended: one tick of `checkSession` on a waiting session marks
it completed if and only if the session has at least one tracked
issue, the item scan triggers no resume, and every status in the
fetched batch (the code consults the fetched map, not the stored
tracked rows) lies in the persona's target set; when those conditions
hold no resume is triggered that tick (the tick's notifications hold
no resume), and when the scan does trigger a resume the resume wins —
the session is not marked completed that tick even if every item
reached the target set. -/
theorem checkSession_completion_amended (uuid5 : String → String)
    (loadCfg : String → OrchestratorConfig) (statuses : List (Nat × String))
    (session : Session) (now : Nat) (st : StateStore)
    (hfind : st.getSession session.id = some session)
    (hw : session.status = .waiting) :
    ((((GitHubMonitor.checkSession uuid5 loadCfg statuses session now
          st).1.getSession session.id).map (fun s => s.status) = some .completed)
      ↔ (st.getTrackedIssues session.id ≠ [] ∧
         (GitHubMonitor.checkItems uuid5 loadCfg session now statuses st).2.2 =
           false ∧
         GitHubMonitor.checkAllComplete loadCfg session statuses = true))
    ∧ ((GitHubMonitor.checkItems uuid5 loadCfg session now statuses st).2.2 =
          false →
        countResumes (GitHubMonitor.checkSession uuid5 loadCfg statuses session
          now st).2 = 0) := by
  have hnc : (st.getSession session.id).map (fun s => s.status) ≠
      some .completed := by
    rw [hfind]
    simp [hw]
  constructor
  · simp only [GitHubMonitor.checkSession]
    by_cases ht : st.getTrackedIssues session.id = []
    · rw [if_pos ht]
      constructor
      · intro hcon
        exact absurd hcon hnc
      · rintro ⟨hne, _, _⟩
        exact absurd ht hne
    · rw [if_neg ht]
      by_cases hfl : (GitHubMonitor.checkItems uuid5 loadCfg session now statuses
          st).2.2 = true
      · rw [if_pos hfl]
        constructor
        · intro hcon
          exact absurd hcon (checkItems_no_new_completed uuid5 loadCfg session
            now statuses st session.id hnc)
        · rintro ⟨_, hfl2, _⟩
          exact absurd hfl2 (by simp [hfl])
      · rw [if_neg hfl]
        have hfl' : (GitHubMonitor.checkItems uuid5 loadCfg session now statuses
            st).2.2 = false := by
          revert hfl
          cases (GitHubMonitor.checkItems uuid5 loadCfg session now statuses
            st).2.2 <;> simp
        have hsess := checkItems_sessions_no_trigger uuid5 loadCfg session now
          statuses st hfl'
        have hfind' : (GitHubMonitor.checkItems uuid5 loadCfg session now
            statuses st).1.getSession session.id = some session := by
          rw [getSession_eq_of_sessions_eq hsess]
          exact hfind
        by_cases hcc : GitHubMonitor.checkAllComplete loadCfg session statuses =
            true
        · rw [if_pos hcc]
          constructor
          · intro _
            exact ⟨ht, hfl', hcc⟩
          · intro _
            exact markCompleted_status _ _ _ _ hfind'
        · rw [if_neg hcc]
          constructor
          · intro hcon
            have hcon' : ((GitHubMonitor.checkItems uuid5 loadCfg session now
                statuses st).1.getSession session.id).map (fun s => s.status) =
                some .completed := hcon
            rw [getSession_eq_of_sessions_eq hsess] at hcon'
            exact absurd hcon' hnc
          · rintro ⟨_, _, hcc2⟩
            exact absurd hcc2 hcc
  · intro hfl'
    rw [checkSession_events]
    by_cases ht : st.getTrackedIssues session.id = []
    · rw [if_pos ht]
      rfl
    · rw [if_neg ht]
      rw [checkItems_countResumes, hfl']
      rfl

/-- C1 amended witness: at the concrete completing tick — no
`waitingForStatuses`, the one tracked item moves to "Ready", no resume
fires — the session is marked completed; the hypotheses and the three
right-hand conditions are discharged by evaluation. -/
theorem checkSession_completion_amended_witness :
    (((GitHubMonitor.checkSession exUuid exLoadCfg [(200, "Ready")]
        exSessionPlain 5 (exStore exSessionPlain)).1.getSession "s1").map
          (fun s => s.status)) = some .completed :=
  (checkSession_completion_amended exUuid exLoadCfg [(200, "Ready")]
    exSessionPlain 5 (exStore exSessionPlain) (by decide) rfl).1.mpr
    ⟨by decide, by decide, by decide⟩
